import Mathlib

/-!
Shallow embedding of the Sports Hub backend (src/main.py, src/schemas.py).

Documents of the store are association lists from field names to values.
The document-store adapter (`create_document`, `get_documents`, the `db`
handle) lives in a `database` module that is not part of the sources, so it
is modelled from the specification's adapter contract; every handler below
is translated directly from src/main.py.
-/

namespace SportsHub

/-- A field value of a stored document: Python strings, ints, floats
(represented exactly as rationals, since the handlers only pass them
through), booleans, `None`, and the store-assigned internal object id. -/
inductive Value where
  | str (s : String)
  | int (n : Int)
  | rat (q : Rat)
  | bool (b : Bool)
  | oid (n : Nat)
  | none
deriving DecidableEq, Repr

/-- A document: an ordered association list of field name / value pairs,
mirroring a Python dict (keys are unique in every document this system
builds). -/
abbrev Doc := List (String × Value)

/-- Python `str(...)` on a field value; the handlers apply it only to the
internal object id (`str(d.pop("_id"))`). -/
def valueStr : Value → String
  | .str s => s
  | .int n => toString n
  | .rat q => toString q
  | .bool b => if b then "True" else "False"
  | .oid n => toString n
  | .none => "None"

/-- Python `Optional[str]` values as stored in a document dict. -/
def optStr : Option String → Value
  | some s => .str s
  | Option.none => .none

/-- Python `k in d` on a dict. -/
def hasKey (k : String) (d : Doc) : Bool :=
  d.any (fun kv => kv.1 == k)

/-- Python `d.pop(k)`'s removal effect on a dict. -/
def eraseKey (k : String) (d : Doc) : Doc :=
  d.filter (fun kv => kv.1 != k)

/-- Python `d[k] = v` on a dict: overwrite in place if the key exists,
otherwise append the new key at the end. -/
def setKey (k : String) (v : Value) (d : Doc) : Doc :=
  if hasKey k d then d.map (fun kv => if kv.1 == k then (k, v) else kv)
  else d ++ [(k, v)]

/-- The id-normalisation step shared by the three listing handlers
(src/main.py): `if "_id" in d: d["id"] = str(d.pop("_id"))`. -/
def normalizeId (d : Doc) : Doc :=
  match List.lookup "_id" d with
  | some v => setKey "id" (Value.str (valueStr v)) (eraseKey "_id" d)
  | Option.none => d

/-- Modelled from the spec: the document store's state. The adapter owns a
process-wide connection (`connected`), a counter from which fresh internal
ids are assigned, and the named collections, each an insertion-ordered list
of documents. -/
structure Store where
  connected : Bool
  nextId : Nat
  collections : String → List Doc

/-- Modelled from the spec: `create_document(collection, fields) -> id`
from the missing `database` module. Inserts the fields plus a fresh
store-assigned internal `_id` at the end of the collection and returns the
id's string form; fails when the store is unreachable. -/
def create_document (s : Store) (c : String) (fields : Doc) :
    Except String (String × Store) :=
  if s.connected then
    Except.ok (toString s.nextId,
      { s with
        nextId := s.nextId + 1,
        collections := fun c2 =>
          if c2 = c then s.collections c2 ++ [fields ++ [("_id", Value.oid s.nextId)]]
          else s.collections c2 })
  else Except.error "database unreachable"

/-- A document matches a filter when it holds every key/value pair of the
filter (equality only; the empty filter matches everything). -/
def matchesFilter (filt : Doc) (d : Doc) : Bool :=
  filt.all (fun kv => decide (List.lookup kv.1 d = some kv.2))

/-- Modelled from the spec: `get_documents(collection, filter={}) -> docs`
from the missing `database` module. Returns, in insertion order, every
document of the collection matching the filter (the returned documents
carry their internal `_id` field); raises when the store is unreachable, so
that each handler's own error policy decides what the caller sees. -/
def get_documents (s : Store) (c : String) (filt : Doc) :
    Except String (List Doc) :=
  if s.connected then
    Except.ok ((s.collections c).filter (fun d => matchesFilter filt d))
  else Except.error "database unreachable"

/-! ### Request models (src/main.py) -/

/-- `BookingIn` (src/main.py lines 21-31): note there is no `status`
field. -/
structure BookingIn where
  user_id : Option String := Option.none
  venue_id : String
  venue_name : String
  venue_type : String
  date : String
  start_time : String
  end_time : String
  slots : Int
  total_amount : Rat
  share_to_social : Bool := false

/-- `payload.dict()` for a `BookingIn`, in declared field order. -/
def BookingIn.dict (p : BookingIn) : Doc :=
  [("user_id", optStr p.user_id),
   ("venue_id", Value.str p.venue_id),
   ("venue_name", Value.str p.venue_name),
   ("venue_type", Value.str p.venue_type),
   ("date", Value.str p.date),
   ("start_time", Value.str p.start_time),
   ("end_time", Value.str p.end_time),
   ("slots", Value.int p.slots),
   ("total_amount", Value.rat p.total_amount),
   ("share_to_social", Value.bool p.share_to_social)]

/-- `GameIn` (src/main.py lines 33-39): note there is no `players`
field. -/
structure GameIn where
  title : String
  sport : String
  visibility : String := "public"
  host_user_id : Option String := Option.none
  max_players : Int := 10
  description : Option String := Option.none

/-- `payload.dict()` for a `GameIn`, in declared field order. -/
def GameIn.dict (p : GameIn) : Doc :=
  [("title", Value.str p.title),
   ("sport", Value.str p.sport),
   ("visibility", Value.str p.visibility),
   ("host_user_id", optStr p.host_user_id),
   ("max_players", Value.int p.max_players),
   ("description", optStr p.description)]

/-- `PostIn` (src/main.py lines 41-44). -/
structure PostIn where
  user_id : Option String := Option.none
  content : String
  image : Option String := Option.none

/-- `payload.dict()` for a `PostIn`, in declared field order. -/
def PostIn.dict (p : PostIn) : Doc :=
  [("user_id", optStr p.user_id),
   ("content", Value.str p.content),
   ("image", optStr p.image)]

/-! ### Static venue catalog (src/main.py) -/

/-- A venue of the static catalog, with the fields of the sample dicts. -/
structure Venue where
  id : String
  name : String
  type : String
  tags : List String
  address : String
  rating : Rat
  distance_km : Rat
  price_per_30min : Rat
  image : String
deriving DecidableEq, Repr

/-- `SAMPLE_VENUES` (src/main.py lines 60-66). -/
def SAMPLE_VENUES : List Venue :=
  [{ id := "v1", name := "City Arena", type := "court",
     tags := ["football", "basketball"], address := "Downtown", rating := 4.8,
     distance_km := 1.1, price_per_30min := 15,
     image := "https://images.unsplash.com/photo-1517649763962-0c623066013b" },
   { id := "v2", name := "Hoops Central", type := "court",
     tags := ["basketball"], address := "West End", rating := 4.6,
     distance_km := 2.0, price_per_30min := 12,
     image := "https://images.unsplash.com/photo-1483728642387-6c3bdd6c93e5" },
   { id := "v3", name := "Groove Studio", type := "studio",
     tags := ["dance", "zumba"], address := "Midtown", rating := 4.7,
     distance_km := 0.9, price_per_30min := 10,
     image := "https://images.unsplash.com/photo-1515169067865-5387ec356754" },
   { id := "v4", name := "Wellness Hub", type := "recovery",
     tags := ["ice bath", "massage"], address := "Riverside", rating := 4.9,
     distance_km := 1.5, price_per_30min := 18,
     image := "https://images.unsplash.com/photo-1519824145371-296894a0daa9" },
   { id := "v5", name := "Blue Pools", type := "recovery",
     tags := ["swimming"], address := "Uptown", rating := 4.5,
     distance_km := 2.2, price_per_30min := 8,
     image := "https://images.unsplash.com/photo-1519315901367-f34ff9154487" }]

/-- `GET /api/venues` handler (src/main.py lines 87-94). A `None` or
empty-string query value is falsy in Python, so it applies no filtering. -/
def get_venues (vtype : Option String) (tag : Option String) : List Venue :=
  let items := SAMPLE_VENUES
  let items :=
    match vtype with
    | some t => if t = "" then items else items.filter (fun v => v.type == t)
    | Option.none => items
  match tag with
  | some t => if t = "" then items else items.filter (fun v => v.tags.contains t)
  | Option.none => items

/-- The `{"title": ..., "items": ...}` envelope of the recovery
recommendation endpoint. -/
structure RecoveryRecos where
  title : String
  items : List Venue
deriving DecidableEq, Repr

/-- `GET /api/recommendations/recovery` handler (src/main.py lines
135-139). -/
def recommend_recovery : RecoveryRecos :=
  { title := "Top picks to recover",
    items := (SAMPLE_VENUES.filter (fun v => v.type == "recovery")).take 3 }

/-! ### Persisted-resource handlers (src/main.py) -/

/-- `POST /api/bookings` handler (src/main.py lines 111-118): persist the
payload under collection `booking`; on success return `{"id": booking_id,
**payload.dict()}`; a persistence failure surfaces as a server error. -/
def create_booking (p : BookingIn) (s : Store) : Except String (Doc × Store) :=
  match create_document s "booking" p.dict with
  | Except.ok (bid, s2) => Except.ok (("id", Value.str bid) :: p.dict, s2)
  | Except.error e => Except.error e

/-- The filter built by the bookings listing handler:
`{"user_id": user_id} if user_id else {}` — a truthy `user_id` becomes an
equality filter (Python's `if user_id` treats `None` and `""` alike). -/
def bookingFilter (user_id : Option String) : Doc :=
  match user_id with
  | some uid => if uid = "" then [] else [("user_id", Value.str uid)]
  | Option.none => []

/-- `GET /api/bookings` handler (src/main.py lines 121-132): read failures
surface as a server error. -/
def list_bookings (user_id : Option String) (s : Store) :
    Except String (List Doc) :=
  match get_documents s "booking" (bookingFilter user_id) with
  | Except.ok docs => Except.ok (docs.map normalizeId)
  | Except.error e => Except.error e

/-- `GET /api/games` handler (src/main.py lines 143-152): any read failure
is swallowed into an empty list. -/
def list_games (s : Store) : List Doc :=
  match get_documents s "game" [] with
  | Except.ok docs => docs.map normalizeId
  | Except.error _ => []

/-- `POST /api/games` handler (src/main.py lines 155-161). -/
def create_game (p : GameIn) (s : Store) : Except String (Doc × Store) :=
  match create_document s "game" p.dict with
  | Except.ok (gid, s2) => Except.ok (("id", Value.str gid) :: p.dict, s2)
  | Except.error e => Except.error e

/-- `GET /api/posts` handler (src/main.py lines 164-173): any read failure
is swallowed into an empty list. -/
def list_posts (s : Store) : List Doc :=
  match get_documents s "socialpost" [] with
  | Except.ok docs => docs.map normalizeId
  | Except.error _ => []

/-- `POST /api/posts` handler (src/main.py lines 176-182). -/
def create_post (p : PostIn) (s : Store) : Except String (Doc × Store) :=
  match create_document s "socialpost" p.dict with
  | Except.ok (pid, s2) => Except.ok (("id", Value.str pid) :: p.dict, s2)
  | Except.error e => Except.error e

/-! ### Diagnostics (src/main.py lines 186-211) -/

/-- Modelled from the spec: the `db` handle exported by the missing
`database` module, as the diagnostics endpoint observes it — its name and
the outcome of the `list_collection_names()` probe, which either yields the
collection names or raises. -/
structure DBHandle where
  name : String
  list_collection_names : Except String (List String)

/-- What `test_database` observes: the `db` handle (`None` when the store
is not available) and whether the `DATABASE_URL` environment value is
set. -/
structure DiagInput where
  db : Option DBHandle
  database_url_set : Bool

/-- The response dict of `GET /test`. -/
structure DiagResponse where
  backend : String
  database : String
  database_url : Option String
  database_name : Option String
  connection_status : String
  collections : List String
deriving DecidableEq, Repr

/-- Python `str(e)[:50]`: the first 50 characters of the error text. -/
def truncate50 (e : String) : String :=
  String.mk (e.data.take 50)

/-- `GET /test` handler (src/main.py lines 186-211): starts from the
not-available response, upgrades it when `db` is present, probes the
collection names, and embeds any probe failure as a truncated error string
instead of raising. -/
def test_database (st : DiagInput) : DiagResponse :=
  match st.db with
  | Option.none =>
    { backend := "✅ Running", database := "❌ Not Available",
      database_url := Option.none, database_name := Option.none,
      connection_status := "Not Connected", collections := [] }
  | some dbv =>
    let base : DiagResponse :=
      { backend := "✅ Running", database := "✅ Connected & Working",
        database_url := some (if st.database_url_set then "✅ Set" else "❌ Not Set"),
        database_name := some dbv.name,
        connection_status := "Connected", collections := [] }
    match dbv.list_collection_names with
    | Except.ok cols => { base with collections := cols.take 10 }
    | Except.error e =>
      { base with database := "⚠️ Connected but Error: " ++ truncate50 e }

/-! ### Association-list lemmas for the id normalisation -/

theorem lookup_cons_eq (k : String) (t : Doc) (kv : String × Value)
    (h : kv.1 = k) : List.lookup k (kv :: t) = some kv.2 := by
  obtain ⟨k1, v1⟩ := kv
  rw [List.lookup_cons]
  have hb : (k == k1) = true := by simp [h.symm]
  rw [hb]

theorem lookup_cons_ne (k : String) (t : Doc) (kv : String × Value)
    (h : kv.1 ≠ k) : List.lookup k (kv :: t) = List.lookup k t := by
  obtain ⟨k1, v1⟩ := kv
  rw [List.lookup_cons]
  have hb : (k == k1) = false := by
    simp only [beq_eq_false_iff_ne, ne_eq]
    exact fun he => h (by simp [he])
  rw [hb]

theorem hasKey_cons_tail (k : String) (t : Doc) (kv : String × Value)
    (h : hasKey k (kv :: t) = true) (hne : kv.1 ≠ k) : hasKey k t = true := by
  simp only [hasKey, List.any_cons, Bool.or_eq_true] at h
  rcases h with h | h
  · exact absurd (by simpa using h) hne
  · simpa [hasKey] using h

theorem lookup_of_not_hasKey (k : String) (d : Doc) (h : hasKey k d = false) :
    List.lookup k d = Option.none := by
  induction d with
  | nil => rfl
  | cons kv t ih =>
    simp only [hasKey, List.any_cons, Bool.or_eq_false_iff] at h
    have hne : kv.1 ≠ k := by
      intro he
      have h1 := h.1
      simp [he] at h1
    rw [lookup_cons_ne k t kv hne]
    exact ih (by simpa [hasKey] using h.2)

theorem lookup_mapSet_self (k : String) (v : Value) (d : Doc)
    (h : hasKey k d = true) :
    List.lookup k (d.map (fun kv => if kv.1 == k then (k, v) else kv)) =
      some v := by
  induction d with
  | nil => simp [hasKey] at h
  | cons kv t ih =>
    by_cases hk : kv.1 = k
    · rw [List.map_cons, if_pos (by simp [hk])]
      exact lookup_cons_eq k _ (k, v) rfl
    · rw [List.map_cons, if_neg (by simp [hk])]
      rw [lookup_cons_ne k _ kv hk]
      exact ih (hasKey_cons_tail k t kv h hk)

theorem lookup_mapSet_ne (k k2 : String) (v : Value) (d : Doc) (h : k2 ≠ k) :
    List.lookup k2 (d.map (fun kv => if kv.1 == k then (k, v) else kv)) =
      List.lookup k2 d := by
  induction d with
  | nil => rfl
  | cons kv t ih =>
    by_cases hk : kv.1 = k
    · rw [List.map_cons, if_pos (by simp [hk])]
      rw [lookup_cons_ne k2 _ (k, v) (Ne.symm h)]
      rw [lookup_cons_ne k2 t kv (by rw [hk]; exact Ne.symm h)]
      exact ih
    · rw [List.map_cons, if_neg (by simp [hk])]
      by_cases hk2 : kv.1 = k2
      · rw [lookup_cons_eq k2 _ kv hk2, lookup_cons_eq k2 t kv hk2]
      · rw [lookup_cons_ne k2 _ kv hk2, lookup_cons_ne k2 t kv hk2]
        exact ih

theorem lookup_setKey_self (k : String) (v : Value) (d : Doc) :
    List.lookup k (setKey k v d) = some v := by
  unfold setKey
  by_cases h : hasKey k d = true
  · rw [if_pos h]
    exact lookup_mapSet_self k v d h
  · rw [if_neg h]
    rw [List.lookup_append, lookup_of_not_hasKey k d (by simpa using h)]
    simp only [Option.none_or]
    exact lookup_cons_eq k [] (k, v) rfl

theorem lookup_setKey_ne (k k2 : String) (v : Value) (d : Doc) (h : k2 ≠ k) :
    List.lookup k2 (setKey k v d) = List.lookup k2 d := by
  unfold setKey
  by_cases hh : hasKey k d = true
  · rw [if_pos hh]
    exact lookup_mapSet_ne k k2 v d h
  · rw [if_neg hh]
    rw [List.lookup_append]
    rw [lookup_cons_ne k2 [] (k, v) (Ne.symm h), List.lookup_nil,
      Option.or_none]

theorem lookup_eraseKey_self (k : String) (d : Doc) :
    List.lookup k (eraseKey k d) = Option.none := by
  apply lookup_of_not_hasKey
  unfold hasKey eraseKey
  rw [List.any_eq_false]
  intro kv hkv
  have hne := List.of_mem_filter hkv
  simp only [bne_iff_ne, ne_eq] at hne
  simpa using hne

theorem lookup_eraseKey_ne (k k2 : String) (d : Doc) (h : k2 ≠ k) :
    List.lookup k2 (eraseKey k d) = List.lookup k2 d := by
  induction d with
  | nil => rfl
  | cons kv t ih =>
    by_cases hk : kv.1 = k
    · have hne2 : kv.1 ≠ k2 := by rw [hk]; exact Ne.symm h
      simp only [eraseKey, List.filter_cons]
      rw [if_neg (by simp [hk])]
      rw [lookup_cons_ne k2 t kv hne2]
      simpa [eraseKey] using ih
    · simp only [eraseKey, List.filter_cons]
      rw [if_pos (by simp [hk])]
      by_cases hk2 : kv.1 = k2
      · rw [lookup_cons_eq k2 _ kv hk2, lookup_cons_eq k2 t kv hk2]
      · rw [lookup_cons_ne k2 _ kv hk2, lookup_cons_ne k2 t kv hk2]
        simpa [eraseKey] using ih

/-! ### Claim theorems -/

/-- C1: for every read of the games or posts listing in which the store
read fails (in the modelled adapter, reads fail exactly when the store is
unreachable), the operation returns an empty sequence and raises no error
(the handlers are total functions into plain lists); whereas a bookings
listing whose store read fails surfaces a server error instead of a
result. -/
theorem read_failure_policy_asymmetry (s : Store) (h : s.connected = false) :
    list_games s = [] ∧ list_posts s = [] ∧
    ∀ uid, ∃ e, list_bookings uid s = Except.error e := by
  refine ⟨?_, ?_, ?_⟩
  · simp [list_games, get_documents, h]
  · simp [list_posts, get_documents, h]
  · intro uid
    refine ⟨"database unreachable", ?_⟩
    simp [list_bookings, get_documents, h]

/-- A store whose connection is down, with nothing persisted. -/
def storeDown : Store :=
  { connected := false, nextId := 0, collections := fun _ => [] }

/-- Witness for C1 at a concrete unreachable store. -/
theorem read_failure_policy_asymmetry_witness :
    list_games storeDown = [] ∧ list_posts storeDown = [] ∧
    ∃ e, list_bookings (some "u1") storeDown = Except.error e := by
  have h := read_failure_policy_asymmetry storeDown rfl
  exact ⟨h.1, h.2.1, h.2.2 (some "u1")⟩

/-- C2 (counterexample): with the type filter given as the empty string,
`get_venues` applies no filtering (Python truthiness), so it returns the
full static set, which contains venues whose type differs from the given
filter — the claim's "type equal to the type filter when that filter is
given" fails at this input. -/
theorem get_venues_empty_string_filter_cex :
    get_venues (some "") Option.none = SAMPLE_VENUES ∧
    ∃ v ∈ get_venues (some "") Option.none, v.type ≠ "" :=
  ⟨rfl, by decide⟩

/-- C2 (amended): the venue listing always returns a sublist of the static
set; every returned venue matches the type filter when it is given and
non-empty, and contains the tag filter when it is given and non-empty (an
empty-string filter applies no filtering); with neither filter given the
full static set is returned. -/
theorem get_venues_filter_spec (vtype tag : Option String) :
    (get_venues vtype tag).Sublist SAMPLE_VENUES ∧
    (∀ t, vtype = some t → t ≠ "" → ∀ v ∈ get_venues vtype tag, v.type = t) ∧
    (∀ t, tag = some t → t ≠ "" → ∀ v ∈ get_venues vtype tag, t ∈ v.tags) ∧
    (vtype = Option.none → tag = Option.none →
      get_venues vtype tag = SAMPLE_VENUES) := by
  refine ⟨?_, ?_, ?_, ?_⟩
  · rcases vtype with _ | t1 <;> rcases tag with _ | t2
    · exact List.Sublist.refl _
    · by_cases h2 : t2 = "" <;> simp only [get_venues, h2, if_pos, if_neg,
        ite_true, ite_false]
      · exact List.Sublist.refl _
      · exact List.filter_sublist _
    · by_cases h1 : t1 = "" <;> simp only [get_venues, h1, ite_true, ite_false]
      · exact List.Sublist.refl _
      · exact List.filter_sublist _
    · by_cases h1 : t1 = "" <;> by_cases h2 : t2 = "" <;>
        simp only [get_venues, h1, h2, ite_true, ite_false]
      · exact List.Sublist.refl _
      · exact List.filter_sublist _
      · exact List.filter_sublist _
      · exact (List.filter_sublist _).trans (List.filter_sublist _)
  · rintro t rfl hne v hv
    rcases tag with _ | t2
    · simp only [get_venues, hne, ite_false] at hv
      have := List.of_mem_filter hv
      simpa using this
    · by_cases h2 : t2 = "" <;>
        simp only [get_venues, hne, h2, ite_true, ite_false] at hv
      · have := List.of_mem_filter hv
        simpa using this
      · have := List.of_mem_filter (List.mem_of_mem_filter hv)
        simpa using this
  · rintro t rfl hne v hv
    rcases vtype with _ | t1
    · simp only [get_venues, hne, ite_false] at hv
      have := List.of_mem_filter hv
      simpa using this
    · by_cases h1 : t1 = "" <;>
        simp only [get_venues, hne, h1, ite_true, ite_false] at hv
      · have := List.of_mem_filter hv
        simpa using this
      · have := List.of_mem_filter hv
        simpa using this
  · rintro rfl rfl
    rfl

/-- Witness for C2's amended theorem at a concrete filter pair. -/
theorem get_venues_filter_spec_witness :
    (get_venues (some "court") (some "basketball")).Sublist SAMPLE_VENUES ∧
    (∀ v ∈ get_venues (some "court") (some "basketball"), v.type = "court") ∧
    (∀ v ∈ get_venues (some "court") (some "basketball"),
      "basketball" ∈ v.tags) := by
  have h := get_venues_filter_spec (some "court") (some "basketball")
  exact ⟨h.1, h.2.1 "court" rfl (by decide), h.2.2.1 "basketball" rfl (by decide)⟩

/-- C4: the recovery recommendation always returns the fixed title and at
most 3 venues, all of type `recovery`, in the catalog's relative order (a
sublist of the static catalog); moreover the items are exactly the first
at most 3 recovery venues in catalog order: they form a prefix of the
catalog's recovery venues that either has the full length 3 or exhausts
them (the remainder is empty), which determines the selection uniquely. -/
theorem recommend_recovery_spec :
    recommend_recovery.title = "Top picks to recover" ∧
    recommend_recovery.items.length ≤ 3 ∧
    (∀ v ∈ recommend_recovery.items, v.type = "recovery") ∧
    recommend_recovery.items.Sublist SAMPLE_VENUES ∧
    ∃ rest, recommend_recovery.items ++ rest =
        SAMPLE_VENUES.filter (fun v => v.type == "recovery") ∧
      (recommend_recovery.items.length = 3 ∨ rest = []) := by
  refine ⟨rfl, by decide, by decide, ?_, [], ?_, Or.inr rfl⟩
  · exact (List.take_sublist _ _).trans (List.filter_sublist _)
  · rw [List.append_nil]
    rfl

/-- C9: the diagnostics endpoint is a total function — it never propagates
an error. A disconnected store yields the not-available status with an
empty collections list; a failing collection probe is embedded as an error
string truncated to at most 50 characters; a successful probe reports at
most the first 10 collection names. -/
theorem test_database_best_effort (st : DiagInput) :
    (st.db = Option.none →
      (test_database st).database = "❌ Not Available" ∧
      (test_database st).collections = []) ∧
    (∀ dbv e, st.db = some dbv →
      dbv.list_collection_names = Except.error e →
      (test_database st).database = "⚠️ Connected but Error: " ++ truncate50 e ∧
      (truncate50 e).length ≤ 50 ∧
      (test_database st).collections = []) ∧
    (∀ dbv cols, st.db = some dbv →
      dbv.list_collection_names = Except.ok cols →
      (test_database st).collections = cols.take 10 ∧
      (test_database st).collections.length ≤ 10 ∧
      (test_database st).collections.Sublist cols) := by
  refine ⟨?_, ?_, ?_⟩
  · intro h
    unfold test_database
    rw [h]
    exact ⟨rfl, rfl⟩
  · intro dbv e h he
    unfold test_database
    rw [h]
    dsimp only
    rw [he]
    refine ⟨rfl, ?_, rfl⟩
    show (e.data.take 50).length ≤ 50
    exact List.length_take_le 50 e.data
  · intro dbv cols h hc
    unfold test_database
    rw [h]
    dsimp only
    rw [hc]
    exact ⟨rfl, List.length_take_le 10 cols, List.take_sublist _ _⟩

/-- A diagnostics input with no store handle. -/
def diagDown : DiagInput := { db := Option.none, database_url_set := false }

/-- A db handle whose collection probe raises a long message. -/
def dbhProbeErr : DBHandle :=
  { name := "appdb",
    list_collection_names :=
      Except.error "Timeout: the collection names probe took far too long to answer" }

/-- A db handle whose collection probe succeeds. -/
def dbhOk : DBHandle :=
  { name := "appdb",
    list_collection_names := Except.ok ["booking", "game", "socialpost"] }

/-- A diagnostics input whose collection probe raises. -/
def diagProbeErr : DiagInput := { db := some dbhProbeErr, database_url_set := true }

/-- A diagnostics input whose collection probe succeeds. -/
def diagOk : DiagInput := { db := some dbhOk, database_url_set := true }

/-- Witness for C9 exercising all three probe outcomes. -/
theorem test_database_best_effort_witness :
    ((test_database diagDown).database = "❌ Not Available" ∧
      (test_database diagDown).collections = []) ∧
    ((test_database diagProbeErr).database =
        "⚠️ Connected but Error: " ++
          truncate50 "Timeout: the collection names probe took far too long to answer" ∧
      (truncate50 "Timeout: the collection names probe took far too long to answer").length ≤ 50 ∧
      (test_database diagProbeErr).collections = []) ∧
    ((test_database diagOk).collections =
        ["booking", "game", "socialpost"].take 10 ∧
      (test_database diagOk).collections.length ≤ 10) := by
  refine ⟨(test_database_best_effort diagDown).1 rfl, ?_, ?_⟩
  · exact (test_database_best_effort diagProbeErr).2.1 dbhProbeErr _ rfl rfl
  · have h := (test_database_best_effort diagOk).2.2 dbhOk _ rfl rfl
    exact ⟨h.1, h.2.1⟩

/-- C10: an empty-string query value is falsy in Python, so it is treated
as an absent filter: venue listing with empty-string filters returns the
full static set, and the bookings listing with `user_id = ""` queries with
the empty filter, returning all persisted bookings. -/
theorem empty_string_query_params_are_absent (s : Store)
    (hc : s.connected = true) :
    get_venues (some "") (some "") = SAMPLE_VENUES ∧
    list_bookings (some "") s = list_bookings Option.none s ∧
    list_bookings (some "") s =
      Except.ok ((s.collections "booking").map normalizeId) := by
  refine ⟨rfl, rfl, ?_⟩
  simp only [list_bookings, get_documents, bookingFilter, hc, if_true,
    ite_true, reduceIte, matchesFilter, List.all_nil]
  rw [List.filter_true]

/-- A connected store holding two bookings with different user ids. -/
def storeTwoBookings : Store :=
  { connected := true, nextId := 2,
    collections := fun c =>
      if c = "booking" then
        [[("user_id", Value.str "u1"), ("_id", Value.oid 0)],
         [("user_id", Value.str "u2"), ("_id", Value.oid 1)]]
      else [] }

/-- Witness for C10: with `user_id = ""` both persisted bookings are
returned, not only those whose user id is the empty string. -/
theorem empty_string_query_params_are_absent_witness :
    get_venues (some "") (some "") = SAMPLE_VENUES ∧
    list_bookings (some "") storeTwoBookings =
      Except.ok ((storeTwoBookings.collections "booking").map normalizeId) := by
  have h := empty_string_query_params_are_absent storeTwoBookings rfl
  exact ⟨h.1, h.2.2⟩

/-- A connected store with nothing persisted. -/
def store0 : Store :=
  { connected := true, nextId := 0, collections := fun _ => [] }

/-- A concrete booking payload (no status can be supplied: `BookingIn` has
no such field). -/
def bookingPayload1 : BookingIn :=
  { user_id := some "u1", venue_id := "v1", venue_name := "City Arena",
    venue_type := "court", date := "2025-12-01", start_time := "10:00",
    end_time := "11:00", slots := 2, total_amount := 30,
    share_to_social := false }

/-- C5 (code evaluated at the failing input): the booking-creation handler
persists and returns exactly `BookingIn`'s fields, which include no
`status` key — neither the creation response nor the persisted document
carries a status, contradicting the documented default `upcoming`. -/
theorem created_booking_lacks_status :
    ∃ r s2, create_booking bookingPayload1 store0 = Except.ok (r, s2) ∧
      List.lookup "status" r = Option.none ∧
      ∀ d ∈ s2.collections "booking",
        List.lookup "status" d = Option.none := by
  refine ⟨_, _, rfl, rfl, ?_⟩
  intro d hd
  have hd2 : d ∈ [BookingIn.dict bookingPayload1 ++ [("_id", Value.oid 0)]] := hd
  rw [List.mem_singleton] at hd2
  subst hd2
  rfl

/-- The game payload of the spec's round-trip example: only a title and a
sport are supplied. -/
def gamePayload1 : GameIn := { title := "3v3 Pickup", sport := "basketball" }

/-- C6: creating a game from a payload giving only title and sport against
a store whose game collection is empty, then listing games, yields exactly
one entry whose sport is the submitted one, whose visibility defaults to
`public`, and whose max_players defaults to 10. -/
theorem create_game_defaults_round_trip (t sp : String) (s : Store)
    (hc : s.connected = true) (hg : s.collections "game" = []) :
    ∃ r s2, create_game { title := t, sport := sp } s = Except.ok (r, s2) ∧
      ∃ d, list_games s2 = [d] ∧
        List.lookup "sport" d = some (Value.str sp) ∧
        List.lookup "visibility" d = some (Value.str "public") ∧
        List.lookup "max_players" d = some (Value.int 10) := by
  have hcr : create_game { title := t, sport := sp } s =
      Except.ok (("id", Value.str (toString s.nextId)) ::
          GameIn.dict { title := t, sport := sp },
        { s with
          nextId := s.nextId + 1,
          collections := fun c2 =>
            if c2 = "game" then
              s.collections c2 ++
                [GameIn.dict { title := t, sport := sp } ++
                  [("_id", Value.oid s.nextId)]]
            else s.collections c2 }) := by
    unfold create_game create_document
    rw [if_pos hc]
  refine ⟨_, _, hcr, ?_⟩
  refine ⟨GameIn.dict { title := t, sport := sp } ++
    [("id", Value.str (toString s.nextId))], ?_, rfl, rfl, rfl⟩
  unfold list_games get_documents
  rw [if_pos (show ({ s with
      nextId := s.nextId + 1,
      collections := fun c2 =>
        if c2 = "game" then
          s.collections c2 ++
            [GameIn.dict { title := t, sport := sp } ++
              [("_id", Value.oid s.nextId)]]
        else s.collections c2 } : Store).connected = true from hc)]
  show (((if ("game" : String) = "game" then
      s.collections "game" ++
        [GameIn.dict { title := t, sport := sp } ++ [("_id", Value.oid s.nextId)]]
      else s.collections "game").filter
        (fun d => matchesFilter [] d)).map normalizeId) = _
  rw [if_pos rfl, hg]
  rfl

/-- Witness for C6 at the spec's concrete payload against the empty
store. -/
theorem create_game_defaults_round_trip_witness :
    ∃ r s2, create_game gamePayload1 store0 = Except.ok (r, s2) ∧
      ∃ d, list_games s2 = [d] ∧
        List.lookup "sport" d = some (Value.str "basketball") ∧
        List.lookup "visibility" d = some (Value.str "public") ∧
        List.lookup "max_players" d = some (Value.int 10) :=
  create_game_defaults_round_trip "3v3 Pickup" "basketball" store0 rfl rfl

/-- C7 (code evaluated at the failing input): `GameIn` has no `players`
field, so a created game record carries no players list at all — neither
in the creation response nor in the listed persisted document — rather
than an empty one. -/
theorem created_game_lacks_players :
    ∃ r s2, create_game gamePayload1 store0 = Except.ok (r, s2) ∧
      List.lookup "players" r = Option.none ∧
      list_games s2 =
        [GameIn.dict gamePayload1 ++ [("id", Value.str "0")]] ∧
      ∀ d ∈ list_games s2, List.lookup "players" d = Option.none := by
  refine ⟨_, _, rfl, rfl, rfl, ?_⟩
  intro d hd
  have hd2 : d ∈ [GameIn.dict gamePayload1 ++ [("id", Value.str "0")]] := hd
  rw [List.mem_singleton] at hd2
  subst hd2
  rfl

/-- C8: every document returned by the bookings, games, or posts listing
is the id-normalisation of a stored document of the corresponding
collection; and normalisation replaces the internal `_id` by a public `id`
holding its string form, leaves `_id` absent from the returned record, and
keeps every other stored field unchanged (for documents that do not
already carry a public `id`, as none produced by this system do). -/
theorem listings_normalize_internal_ids (s : Store) (uid : Option String) :
    (∀ d ∈ list_games s, ∃ od ∈ s.collections "game", d = normalizeId od) ∧
    (∀ d ∈ list_posts s, ∃ od ∈ s.collections "socialpost",
      d = normalizeId od) ∧
    (∀ before, list_bookings uid s = Except.ok before →
      ∀ d ∈ before, ∃ od ∈ s.collections "booking", d = normalizeId od) ∧
    (∀ od v, List.lookup "_id" od = some v →
      List.lookup "id" od = Option.none →
      List.lookup "_id" (normalizeId od) = Option.none ∧
      List.lookup "id" (normalizeId od) = some (Value.str (valueStr v)) ∧
      ∀ k w, k ≠ "_id" → List.lookup k od = some w →
        List.lookup k (normalizeId od) = some w) := by
  refine ⟨?_, ?_, ?_, ?_⟩
  · intro d hd
    unfold list_games get_documents at hd
    by_cases hc : s.connected = true
    · rw [if_pos hc] at hd
      have hd2 : d ∈ ((s.collections "game").filter
          (fun x => matchesFilter [] x)).map normalizeId := hd
      obtain ⟨od, hod, rfl⟩ := List.mem_map.mp hd2
      exact ⟨od, List.mem_of_mem_filter hod, rfl⟩
    · rw [if_neg hc] at hd
      have hd2 : d ∈ ([] : List Doc) := hd
      exact absurd hd2 (List.not_mem_nil d)
  · intro d hd
    unfold list_posts get_documents at hd
    by_cases hc : s.connected = true
    · rw [if_pos hc] at hd
      have hd2 : d ∈ ((s.collections "socialpost").filter
          (fun x => matchesFilter [] x)).map normalizeId := hd
      obtain ⟨od, hod, rfl⟩ := List.mem_map.mp hd2
      exact ⟨od, List.mem_of_mem_filter hod, rfl⟩
    · rw [if_neg hc] at hd
      have hd2 : d ∈ ([] : List Doc) := hd
      exact absurd hd2 (List.not_mem_nil d)
  · intro before hb d hd
    unfold list_bookings get_documents at hb
    by_cases hc : s.connected = true
    · rw [if_pos hc] at hb
      have hb2 : (Except.ok (((s.collections "booking").filter
          (fun x => matchesFilter (bookingFilter uid) x)).map normalizeId) :
            Except String (List Doc)) = Except.ok before := hb
      have hbefore := (Except.ok.injEq _ _).mp hb2
      rw [← hbefore] at hd
      obtain ⟨od, hod, rfl⟩ := List.mem_map.mp hd
      exact ⟨od, List.mem_of_mem_filter hod, rfl⟩
    · rw [if_neg hc] at hb
      exact absurd hb (by simp)
  · intro od v hv hid
    have hnorm : normalizeId od =
        setKey "id" (Value.str (valueStr v)) (eraseKey "_id" od) := by
      unfold normalizeId
      rw [hv]
    rw [hnorm]
    refine ⟨?_, lookup_setKey_self "id" _ _, ?_⟩
    · rw [lookup_setKey_ne "id" "_id" _ _ (by decide)]
      exact lookup_eraseKey_self "_id" od
    · intro k w hk hkw
      by_cases hk2 : k = "id"
      · rw [hk2, hid] at hkw
        cases hkw
      · rw [lookup_setKey_ne "id" k _ _ hk2,
          lookup_eraseKey_ne "_id" k od hk]
        exact hkw

/-- A connected store with one document in each persisted collection. -/
def storeAllThree : Store :=
  { connected := true, nextId := 3,
    collections := fun c =>
      if c = "booking" then [[("user_id", Value.str "u1"), ("_id", Value.oid 0)]]
      else if c = "game" then [[("title", Value.str "g"), ("_id", Value.oid 1)]]
      else if c = "socialpost" then
        [[("content", Value.str "p"), ("_id", Value.oid 2)]]
      else [] }

/-- Witness for C8: a listed game document of a concrete store is the
normalisation of a stored one, and normalisation at a concrete stored
booking replaces `_id` by the stringified `id` and keeps `user_id`. -/
theorem listings_normalize_internal_ids_witness :
    (∃ od ∈ storeAllThree.collections "game",
      [("title", Value.str "g"), ("id", Value.str "1")] = normalizeId od) ∧
    List.lookup "_id"
      (normalizeId [("user_id", Value.str "u1"), ("_id", Value.oid 0)]) =
        Option.none ∧
    List.lookup "id"
      (normalizeId [("user_id", Value.str "u1"), ("_id", Value.oid 0)]) =
        some (Value.str (valueStr (Value.oid 0))) ∧
    List.lookup "user_id"
      (normalizeId [("user_id", Value.str "u1"), ("_id", Value.oid 0)]) =
        some (Value.str "u1") := by
  have h := listings_normalize_internal_ids storeAllThree (some "u1")
  refine ⟨h.1 _ (by decide), ?_⟩
  have h4 := h.2.2.2 [("user_id", Value.str "u1"), ("_id", Value.oid 0)]
    (Value.oid 0) rfl rfl
  exact ⟨h4.1, h4.2.1, h4.2.2 "user_id" (Value.str "u1") (by decide) rfl⟩

/-- A stored document is fresh for the counter value `n` when it carries an
internal `_id` whose string form differs from `n`'s — the modelled
counterpart of the store assigning previously-unseen identifiers. -/
def idFreshFor (n : Nat) (d : Doc) : Bool :=
  match List.lookup "_id" d with
  | some v => valueStr v != toString n
  | Option.none => false

/-- C3: creating a booking with a given `user_id`, then listing bookings
with that same `user_id`, yields a record carrying every submitted field
unchanged and a store-assigned `id` not present in any record listed
before the creation (under the store invariant that all already-stored
booking ids differ from the next assigned one). -/
theorem create_then_list_booking (p : BookingIn) (s : Store) (uid : String)
    (hc : s.connected = true) (hu : p.user_id = some uid)
    (hfresh : (s.collections "booking").all (idFreshFor s.nextId) = true) :
    ∃ r s2 before after,
      create_booking p s = Except.ok (r, s2) ∧
      list_bookings (some uid) s = Except.ok before ∧
      list_bookings (some uid) s2 = Except.ok after ∧
      ∃ d ∈ after,
        (∀ kv ∈ p.dict, List.lookup kv.1 d = some kv.2) ∧
        List.lookup "id" d = some (Value.str (toString s.nextId)) ∧
        ∀ d2 ∈ before,
          List.lookup "id" d2 ≠ some (Value.str (toString s.nextId)) := by
  have hlkuser : List.lookup "user_id"
      (BookingIn.dict p ++ [("_id", Value.oid s.nextId)]) =
        some (Value.str uid) := by
    show some (optStr p.user_id) = some (Value.str uid)
    rw [hu]
    rfl
  have hmatch : matchesFilter (bookingFilter (some uid))
      (BookingIn.dict p ++ [("_id", Value.oid s.nextId)]) = true := by
    by_cases huid : uid = ""
    · have hf : bookingFilter (some uid) = [] := by
        show (if uid = "" then ([] : Doc) else [("user_id", Value.str uid)]) = []
        rw [if_pos huid]
      rw [hf]
      rfl
    · have hf : bookingFilter (some uid) = [("user_id", Value.str uid)] := by
        show (if uid = "" then ([] : Doc) else [("user_id", Value.str uid)]) =
          [("user_id", Value.str uid)]
        rw [if_neg huid]
      rw [hf]
      show (decide (List.lookup "user_id"
        (BookingIn.dict p ++ [("_id", Value.oid s.nextId)]) =
          some (Value.str uid)) && true) = true
      rw [hlkuser]
      simp
  have hcr : create_booking p s =
      Except.ok (("id", Value.str (toString s.nextId)) :: BookingIn.dict p,
        { s with
          nextId := s.nextId + 1,
          collections := fun c2 =>
            if c2 = "booking" then
              s.collections c2 ++
                [BookingIn.dict p ++ [("_id", Value.oid s.nextId)]]
            else s.collections c2 }) := by
    unfold create_booking create_document
    rw [if_pos hc]
  refine ⟨_, _,
    ((s.collections "booking").filter
      (fun x => matchesFilter (bookingFilter (some uid)) x)).map normalizeId,
    (((s.collections "booking" ++
        [BookingIn.dict p ++ [("_id", Value.oid s.nextId)]]).filter
      (fun x => matchesFilter (bookingFilter (some uid)) x)).map normalizeId),
    hcr, ?_, ?_, ?_⟩
  · unfold list_bookings get_documents
    rw [if_pos hc]
  · unfold list_bookings get_documents
    rw [if_pos (show s.connected = true from hc)]
    rfl
  · have hsplit : (((s.collections "booking" ++
        [BookingIn.dict p ++ [("_id", Value.oid s.nextId)]]).filter
          (fun x => matchesFilter (bookingFilter (some uid)) x)).map
            normalizeId) =
        ((s.collections "booking").filter
          (fun x => matchesFilter (bookingFilter (some uid)) x)).map
            normalizeId ++
          [normalizeId (BookingIn.dict p ++ [("_id", Value.oid s.nextId)])] := by
      rw [List.filter_append, List.map_append, List.filter_cons,
        if_pos hmatch]
      rfl
    rw [hsplit]
    refine ⟨normalizeId (BookingIn.dict p ++ [("_id", Value.oid s.nextId)]),
      List.mem_append_right _ (List.mem_singleton_self _), ?_, ?_, ?_⟩
    · intro kv hkv
      have hnorm : normalizeId
          (BookingIn.dict p ++ [("_id", Value.oid s.nextId)]) =
            BookingIn.dict p ++ [("id", Value.str (toString s.nextId))] := rfl
      rw [hnorm]
      simp only [BookingIn.dict, List.mem_cons, List.not_mem_nil, or_false] at hkv
      rcases hkv with rfl | rfl | rfl | rfl | rfl | rfl | rfl | rfl | rfl | rfl <;>
        rfl
    · rfl
    · intro d2 hd2 hcontra
      obtain ⟨od, hodf, rfl⟩ := List.mem_map.mp hd2
      have hod : od ∈ s.collections "booking" := List.mem_of_mem_filter hodf
      have hfod : idFreshFor s.nextId od = true :=
        List.all_eq_true.mp hfresh od hod
      unfold idFreshFor at hfod
      cases hv : List.lookup "_id" od with
      | none =>
        rw [hv] at hfod
        exact Bool.noConfusion hfod
      | some v =>
        rw [hv] at hfod
        have hne : valueStr v ≠ toString s.nextId := by
          simpa using hfod
        simp only [normalizeId, hv] at hcontra
        rw [lookup_setKey_self] at hcontra
        injection hcontra with h1
        injection h1 with h2
        exact hne h2

/-- A connected store already holding one booking for another user, whose
stored id differs from the next assigned one. -/
def storeOneBooking : Store :=
  { connected := true, nextId := 1,
    collections := fun c =>
      if c = "booking" then
        [[("user_id", Value.str "u2"), ("_id", Value.oid 0)]]
      else [] }

/-- Witness for C3 at a concrete payload against a concrete store. -/
theorem create_then_list_booking_witness :
    ∃ r s2 before after,
      create_booking bookingPayload1 storeOneBooking = Except.ok (r, s2) ∧
      list_bookings (some "u1") storeOneBooking = Except.ok before ∧
      list_bookings (some "u1") s2 = Except.ok after ∧
      ∃ d ∈ after,
        (∀ kv ∈ bookingPayload1.dict, List.lookup kv.1 d = some kv.2) ∧
        List.lookup "id" d =
          some (Value.str (toString storeOneBooking.nextId)) ∧
        ∀ d2 ∈ before,
          List.lookup "id" d2 ≠
            some (Value.str (toString storeOneBooking.nextId)) :=
  create_then_list_booking bookingPayload1 storeOneBooking "u1" rfl rfl
    (by decide)

end SportsHub
